import Mathlib

/-!
Verification of the intent-driven dispatch / response-synthesis pipeline of
the mvk-sdk-agent repository (src/src/agents/*, src/src/tools/tavily_search.py).

Python strings are modelled as `List Char`; Python string operations
(`in`, `split`, `strip`, `lower`, `capitalize`) are modelled by executable
functions below.  Fallible external capabilities (LLM calls, the vector
store, the web-search client) are modelled as `Except`-valued parameters;
a Python exception raised by a capability corresponds to `Except.error`.
-/

/-- Boolean list-prefix test (models Python `str.startswith` at a position). -/
def isPrefixL : List Char → List Char → Bool
  | [], _ => true
  | _ :: _, [] => false
  | a :: as, b :: bs => a = b && isPrefixL as bs

/-- Python substring containment `sep in s`. -/
def containsL (sep : List Char) : List Char → Bool
  | [] => isPrefixL sep []
  | c :: rest => isPrefixL sep (c :: rest) || containsL sep rest

/-- Fuelled worker for `splitOnL`; fuel at least the length of the input
makes the fuel-exhausted branch unreachable. -/
def splitOnFuel (sep : List Char) : Nat → List Char → List Char → List (List Char)
  | 0, l, acc => [acc.reverse ++ l]
  | fuel + 1, l, acc =>
    match l with
    | [] => [acc.reverse]
    | c :: rest =>
      if isPrefixL sep (c :: rest) then
        acc.reverse :: splitOnFuel sep fuel (List.drop sep.length (c :: rest)) []
      else
        splitOnFuel sep fuel rest (c :: acc)

/-- Python `s.split(sep)` for a non-empty separator. -/
def splitOnL (sep l : List Char) : List (List Char) :=
  if sep = [] then [l] else splitOnFuel sep l.length l []

/-- Python whitespace recognized by `str.strip()`. -/
def isPySpace (c : Char) : Bool :=
  c = ' ' || c = '\x09' || c = '\x0a' || c = '\x0d' || c = '\x0b' || c = '\x0c'

/-- Python `str.strip()`. -/
def stripL (l : List Char) : List Char :=
  ((l.dropWhile isPySpace).reverse.dropWhile isPySpace).reverse

/-- ASCII lower-casing of one character. -/
def lowerChar (c : Char) : Char :=
  if 'A' ≤ c ∧ c ≤ 'Z' then Char.ofNat (c.toNat + 32) else c

/-- ASCII upper-casing of one character. -/
def upperChar (c : Char) : Char :=
  if 'a' ≤ c ∧ c ≤ 'z' then Char.ofNat (c.toNat - 32) else c

/-- Python `str.lower()` (inputs here are ASCII). -/
def lowerL (l : List Char) : List Char := l.map lowerChar

/-- Python `str.capitalize()`: first character upper-cased, rest lower-cased. -/
def capitalizeL : List Char → List Char
  | [] => []
  | c :: rest => upperChar c :: rest.map lowerChar

/-- Python `enumerate(xs, start)`. -/
def enumFrom : Nat → List α → List (Nat × α)
  | _, [] => []
  | i, x :: xs => (i, x) :: enumFrom (i + 1) xs

/-- Decimal rendering of a natural number, as a character list. -/
def natChars (n : Nat) : List Char := (Nat.repr n).toList

/-- Python `"sep".join`-free concatenation of a list of strings. -/
def joinL (ls : List (List Char)) : List Char := ls.foldr (· ++ ·) []

/- ===== SectionExtractor (src/src/agents/code_generator.py) ===== -/

/-- CodeGenerator._extract_code_block (code_generator.py lines 113-131):
prefer a ```python fence; else the first bare fence when properly closed,
stripping a leading `python`/`py` tag line; otherwise the whole stripped text. -/
def extract_code_block (text : List Char) : List Char :=
  if containsL ( "```python".toList) text then
    let parts := splitOnL ( "```python".toList) text
    if parts.length > 1 then
      stripL ((splitOnL ( "```".toList) (parts.getD 1 [])).getD 0 [])
    else stripL text
  else if containsL ( "```".toList) text then
    let parts := splitOnL ( "```".toList) text
    if parts.length > 2 then
      let code := stripL (parts.getD 1 [])
      let lines := splitOnL ( "\n".toList) code
      match lines with
      | [] => code
      | l0 :: rest =>
        if lowerL (stripL l0) = "python".toList ∨ lowerL (stripL l0) = "py".toList then
          List.intercalate ( "\n".toList) rest
        else code
    else stripL text
  else stripL text

/-- The three accepted label spellings for a section name
(code_generator.py lines 136-140). -/
def section_markers (name : List Char) : List (List Char) :=
  [ "**".toList ++ name ++ ":**".toList,
    "**".toList ++ name ++ "**:".toList,
    name ++ ":".toList]

/-- The fixed stop-marker list (code_generator.py line 150). -/
def stop_markers : List (List Char) :=
  [ "**Explanation".toList, "**Estimated Cost".toList, "**Gotchas".toList,
    "**".toList, "\n\n##".toList]

/-- The stop-marker scan: truncate at the first stop marker (in list order,
not text order) that occurs in the section text and differs from the
start marker (code_generator.py lines 150-153). -/
def apply_stops : List (List Char) → List Char → List Char → List Char
  | [], _, sec => sec
  | stop :: rest, marker, sec =>
    if containsL stop sec && stop ≠ marker then (splitOnL stop sec).getD 0 []
    else apply_stops rest marker sec

/-- The marker loop of CodeGenerator._extract_section
(code_generator.py lines 142-157). -/
def extract_section_go (text : List Char) : List (List Char) → List Char
  | [] => []
  | marker :: rest =>
    if containsL marker text then
      let parts := splitOnL marker text
      if parts.length > 1 then
        stripL (apply_stops stop_markers marker (parts.getD 1 []))
      else extract_section_go text rest
    else extract_section_go text rest

/-- CodeGenerator._extract_section (code_generator.py lines 133-157). -/
def extract_section (text name : List Char) : List Char :=
  extract_section_go text (section_markers name)

/-- Parsed section fields (CodeGenerator._parse_response result). -/
structure ParsedSections where
  code : List Char
  explanation : List Char
  cost_estimate : List Char
  gotchas : List Char
deriving DecidableEq, Repr

/-- CodeGenerator._parse_response (code_generator.py lines 91-111). -/
def parse_response (response : List Char) : ParsedSections :=
  { code := extract_code_block response
  , explanation := extract_section response ( "Explanation".toList)
  , cost_estimate := extract_section response ( "Estimated Cost".toList)
  , gotchas := extract_section response ( "Gotchas".toList) }

example : extract_code_block ( "hello".toList) = "hello".toList := by decide
example : extract_section ( "**Explanation:** hi **Gotchas:** g".toList) ( "Explanation".toList) = "hi".toList := by decide

/- ===== JSON values and a parser for flat intent objects =====

Models Python `json.loads` restricted to the shape the intent classifier
produces: one flat object whose values are strings, booleans or null
(no arrays, numbers, nesting or string escapes).  `none` corresponds to
`json.loads` raising; inputs outside this subset are out of modelled scope. -/

/-- A JSON value of the flat intent subset. -/
inductive JVal where
  | jnull : JVal
  | jbool : Bool → JVal
  | jstr : List Char → JVal
deriving DecidableEq, Repr

/-- A parsed JSON object: key/value pairs in source order. -/
abbrev JObj := List (List Char × JVal)

/-- JSON whitespace. -/
def isJsonWs (c : Char) : Bool :=
  c = ' ' || c = '\x09' || c = '\x0a' || c = '\x0d'

/-- Skip JSON whitespace. -/
def skipWs (l : List Char) : List Char := l.dropWhile isJsonWs

/-- Parse the body of a JSON string after the opening quote; returns the
content and the remainder after the closing quote. -/
def parseStringBody : List Char → Option (List Char × List Char)
  | [] => none
  | c :: rest =>
    if c = '\x22' then some ([], rest)
    else (parseStringBody rest).map (fun p => (c :: p.1, p.2))

/-- Parse one scalar JSON value (string, true, false, null). -/
def parseValue (l : List Char) : Option (JVal × List Char) :=
  match skipWs l with
  | c :: rest =>
    if c = '\x22' then (parseStringBody rest).map (fun p => (JVal.jstr p.1, p.2))
    else if isPrefixL ( "true".toList) (c :: rest) then
      some (JVal.jbool true, (c :: rest).drop 4)
    else if isPrefixL ( "false".toList) (c :: rest) then
      some (JVal.jbool false, (c :: rest).drop 5)
    else if isPrefixL ( "null".toList) (c :: rest) then
      some (JVal.jnull, (c :: rest).drop 4)
    else none
  | [] => none

/-- Parse the members of an object after the opening brace (fuelled). -/
def parsePairs : Nat → List Char → Option (JObj × List Char)
  | 0, _ => none
  | fuel + 1, l =>
    match skipWs l with
    | c :: rest =>
      if c = '\x22' then
        match parseStringBody rest with
        | none => none
        | some (key, r1) =>
          match skipWs r1 with
          | ':' :: r2 =>
            match parseValue r2 with
            | none => none
            | some (v, r3) =>
              match skipWs r3 with
              | ',' :: r4 =>
                match parsePairs fuel r4 with
                | some (ps, r5) => some ((key, v) :: ps, r5)
                | none => none
              | '\x7d' :: r4 => some ([(key, v)], r4)
              | _ => none
          | _ => none
      else none
    | [] => none

/-- Python `json.loads` on the flat intent subset; requires the whole
input to be consumed. -/
def jsonParse (l : List Char) : Option JObj :=
  match skipWs l with
  | '\x7b' :: rest =>
    match skipWs rest with
    | '\x7d' :: r2 => if skipWs r2 = [] then some [] else none
    | _ =>
      match parsePairs (rest.length + 1) rest with
      | some (o, r) => if skipWs r = [] then some o else none
      | none => none
  | _ => none

/-- Python `dict.get(k)` on a parsed object (later duplicate keys win,
as in a Python dict built from JSON). -/
def dictGet : JObj → List Char → Option JVal
  | [], _ => none
  | (k0, v) :: rest, k =>
    match dictGet rest k with
    | some w => some w
    | none => if k0 = k then some v else none

/-- Python truthiness of a JSON value of the subset. -/
def jvTruthy : JVal → Bool
  | JVal.jnull => false
  | JVal.jbool b => b
  | JVal.jstr s => !s.isEmpty

/-- `intent.get(key, False)` followed by an `if` (orchestrator.py
lines 135, 141, 148). -/
def intentTruthy (o : JObj) (k : List Char) : Bool :=
  match dictGet o k with
  | none => false
  | some v => jvTruthy v

/- ===== IntentClassifier (orchestrator.py lines 79-119) ===== -/

/-- The fixed fallback intent (orchestrator.py lines 114-119). -/
def fallbackIntent : JObj :=
  [( "needs_sdk".toList, JVal.jbool true),
   ( "needs_framework".toList, JVal.jbool false),
   ( "needs_code".toList, JVal.jbool false),
   ( "framework_name".toList, JVal.jnull)]

/-- The markdown-fence stripping of _classify_intent
(orchestrator.py lines 102-105). -/
def strip_fence (t : List Char) : List Char :=
  if containsL ( "```json".toList) t then
    stripL ((splitOnL ( "```".toList) ((splitOnL ( "```json".toList) t).getD 1 [])).getD 0 [])
  else if containsL ( "```".toList) t then
    stripL ((splitOnL ( "```".toList) ((splitOnL ( "```".toList) t).getD 1 [])).getD 0 [])
  else t

/-- The parsing part of ChatOrchestrator._classify_intent on a received
response text: strip, unfence, `json.loads`; any parse failure falls back
(orchestrator.py lines 98-119). -/
def classify_parse (content : List Char) : JObj :=
  match jsonParse (strip_fence (stripL content)) with
  | some o => o
  | none => fallbackIntent

/-- ChatOrchestrator._classify_intent: the classifier capability either
raises (`Except.error`, covering the LLM call failing) or yields response
text which is then parsed; every error path yields the fallback intent. -/
def classify_intent (classifier : Except (List Char) (List Char)) : JObj :=
  match classifier with
  | Except.error _ => fallbackIntent
  | Except.ok content => classify_parse content

example : classify_parse ( "\x7b\x7d".toList) = [] := by decide
example : classify_parse ( "not json".toList) = fallbackIntent := by decide
example : classify_parse ( "```json\x0a\x7b\x22needs_sdk\x22: true\x7d\x0a```".toList) =
    [( "needs_sdk".toList, JVal.jbool true)] := by decide

/- ===== Specialist result data model ===== -/

/-- A document source dict built by SDKAgent._extract_sources
(sdk_agent.py lines 133-143). -/
structure DocSource where
  page : List Char
  source : List Char
  content_preview : List Char
deriving DecidableEq, Repr

/-- A web source dict built by FrameworkSpecialist.query
(framework_router.py lines 83-90). -/
structure WebSourceEntry where
  title : List Char
  url : List Char
  score : Rat
deriving DecidableEq, Repr

/-- One entry of a specialist's `sources` list: either a document-source
dict or a web-source dict (they carry different keys). -/
inductive SourceVal where
  | doc : DocSource → SourceVal
  | web : WebSourceEntry → SourceVal
deriving DecidableEq, Repr

/-- A specialist response dict: the QA shape shared by SDKAgent and
FrameworkSpecialist (`answer`, `sources`, `success`, optional
`framework`), or the CodeGenerator shape (`code`, `explanation`,
`cost_estimate`, `gotchas`, `success`). -/
inductive AgentResp where
  | qa (answer : List Char) (sources : List SourceVal) (success : Bool)
      (framework : Option (List Char)) : AgentResp
  | codeR (code explanation cost_estimate gotchas : List Char)
      (success : Bool) : AgentResp
deriving DecidableEq, Repr

/-- Python `resp.get("answer", "")` on a specialist response dict. -/
def getAnswer : AgentResp → List Char
  | AgentResp.qa answer _ _ _ => answer
  | AgentResp.codeR _ _ _ _ _ => []

/-- Python `resp.get("sources")` on a specialist response dict
(`none` when the key is absent, as on a CodeGenerator dict). -/
def getSources : AgentResp → Option (List SourceVal)
  | AgentResp.qa _ sources _ _ => some sources
  | AgentResp.codeR _ _ _ _ _ => none

/-- The response map built by _route_to_agents: keys in insertion order. -/
abbrev RouteMap := List (List Char × AgentResp)

/-- Python `dict[k]` membership-guarded access on the response map
(first match; route never produces duplicate keys). -/
def mapGet : RouteMap → List Char → Option AgentResp
  | [], _ => none
  | (k0, v) :: rest, k => if k0 = k then some v else mapGet rest k

/-- A generator (LLM) capability: one call that may raise. -/
structure LlmCap where
  invoke : List Char → Except (List Char) (List Char)

/- ===== SDKAgent (src/src/agents/sdk_agent.py) ===== -/

/-- A retrieved document: page content plus optional `page` and `source`
metadata entries. -/
structure Doc where
  page_content : List Char
  page : Option (List Char)
  source : Option (List Char)
deriving DecidableEq, Repr

/-- The retriever capability consumed by SDKAgent: the index-readiness
flag and the outcome of the similarity search (which may raise). -/
structure RetrieverCap where
  is_indexed : Bool
  search : Except (List Char) (List Doc)

/-- SDKAgent._build_context (sdk_agent.py lines 123-131). -/
def build_context (docs : List Doc) : List Char :=
  joinL ((enumFrom 1 docs).map (fun p =>
    "[Source ".toList ++ natChars p.1 ++ " - Page ".toList ++
      (p.2.page.getD ( "?".toList)) ++ "]\x0a".toList ++
      stripL p.2.page_content ++ "\x0a\x0a".toList))

/-- SDKAgent._extract_sources (sdk_agent.py lines 133-143). -/
def extract_sources (docs : List Doc) : List SourceVal :=
  docs.map (fun d => SourceVal.doc
    { page := d.page.getD ( "?".toList)
    , source := d.source.getD ( "mvk_sdk_documentation.pdf".toList)
    , content_preview := d.page_content.take 150 ++ "...".toList })

/-- Modelled from the spec: the SDK_AGENT_PROMPT template (src/src/prompts
is not under src/ and prompt wording is a stated non-goal, spec section 1);
modelled as concatenation of its two substituted inputs. -/
def SDK_AGENT_PROMPT_format (context question : List Char) : List Char :=
  context ++ question

/-- The fixed not-indexed message (sdk_agent.py line 43). -/
def notIndexedMsg : List Char :=
  "⚠️ Documentation not yet indexed. Please wait for indexing to complete.".toList

/-- The fixed no-relevant-information message (sdk_agent.py line 73). -/
def noInfoMsg : List Char :=
  "I couldn\x27t find relevant information in the MVK SDK documentation for this question.".toList

/-- The SDKAgent error result (sdk_agent.py lines 117-121). -/
def sdkErrorResult (e : List Char) : AgentResp :=
  AgentResp.qa ( "❌ Error querying SDK documentation: ".toList ++ e) [] false none

/-- SDKAgent.query (sdk_agent.py lines 39-121): precondition check, then
retrieval, then synthesis; every raised error is caught into a
`success=false` result. -/
def SDKAgent.query (r : RetrieverCap) (llm : LlmCap) (question : List Char) : AgentResp :=
  if r.is_indexed = false then AgentResp.qa notIndexedMsg [] false none
  else
    match r.search with
    | Except.error e => sdkErrorResult e
    | Except.ok docs =>
      if docs.isEmpty then AgentResp.qa noInfoMsg [] false none
      else
        match llm.invoke (SDK_AGENT_PROMPT_format (build_context docs) question) with
        | Except.error e => sdkErrorResult e
        | Except.ok answer => AgentResp.qa answer (extract_sources docs) true none

/- ===== TavilySearch (src/src/tools/tavily_search.py) ===== -/

/-- The parameter dict built by TavilySearch.search (tavily_search.py
lines 44-51); `include_domains = none` models the key being absent. -/
structure SearchParams where
  query : List Char
  max_results : Nat
  search_depth : List Char
  include_domains : Option (List (List Char))
deriving DecidableEq, Repr

/-- One raw result item of the web client's response; fields are optional
because the code reads them with `item.get(..., default)`. -/
structure TavilyItem where
  title : Option (List Char)
  url : Option (List Char)
  content : Option (List Char)
  score : Option Rat
deriving DecidableEq, Repr

/-- A processed search hit (tavily_search.py lines 58-64). -/
structure WebHit where
  title : List Char
  url : List Char
  content : List Char
  score : Rat
deriving DecidableEq, Repr

/-- The web client capability: the call of tavily_search.py line 54,
which may raise. -/
abbrev TavilyClient := SearchParams → Except (List Char) (List TavilyItem)

/-- The parameter dict assembly of TavilySearch.search: the
`include_domains` key is added only when the argument is truthy
(tavily_search.py lines 44-51). -/
def mkSearchParams (query : List Char) (max_results : Nat) (search_depth : List Char)
    (include_domains : Option (List (List Char))) : SearchParams :=
  { query := query, max_results := max_results, search_depth := search_depth
  , include_domains :=
      match include_domains with
      | some ds => if ds.isEmpty then none else some ds
      | none => none }

/-- TavilySearch.search (tavily_search.py lines 18-86): call the client,
extract the result fields with defaults; any raised exception yields `[]`. -/
def TavilySearch.search (client : TavilyClient) (query : List Char) (max_results : Nat)
    (search_depth : List Char) (include_domains : Option (List (List Char))) : List WebHit :=
  match client (mkSearchParams query max_results search_depth include_domains) with
  | Except.error _ => []
  | Except.ok items =>
    items.map (fun it =>
      { title := it.title.getD []
      , url := it.url.getD []
      , content := it.content.getD []
      , score := it.score.getD 0 })

/-- TavilySearch._get_framework_domains (tavily_search.py lines 118-128). -/
def get_framework_domains (framework_name : List Char) : Option (List (List Char)) :=
  if lowerL framework_name = "langchain".toList then
    some [ "python.langchain.com".toList, "github.com/langchain-ai".toList]
  else if lowerL framework_name = "llamaindex".toList then
    some [ "docs.llamaindex.ai".toList, "github.com/run-llama".toList]
  else if lowerL framework_name = "crewai".toList then
    some [ "docs.crewai.com".toList, "github.com/joaomdmoura/crewai".toList]
  else if lowerL framework_name = "autogen".toList then
    some [ "microsoft.github.io/autogen".toList, "github.com/microsoft/autogen".toList]
  else if lowerL framework_name = "haystack".toList then
    some [ "docs.haystack.deepset.ai".toList, "github.com/deepset-ai/haystack".toList]
  else none

/-- TavilySearch.search_framework (tavily_search.py lines 88-116). -/
def TavilySearch.search_framework (client : TavilyClient) (framework_name query : List Char)
    (max_results : Nat) : List WebHit :=
  let domains := get_framework_domains framework_name
  TavilySearch.search client (framework_name ++ " ".toList ++ query) max_results
    ( "advanced".toList)
    (match domains with
     | some ds => if ds.isEmpty then none else some ds
     | none => none)

/-- TavilySearch.get_combined_context (tavily_search.py lines 152-170). -/
def get_combined_context (results : List WebHit) : List Char :=
  if results.isEmpty then []
  else joinL (results.map (fun r =>
    "Source: ".toList ++ r.title ++ " (".toList ++ r.url ++ ")\x0a".toList ++
      r.content ++ "\x0a\x0a".toList))

example : TavilySearch.search (fun _ => Except.error ( "boom".toList))
    ( "q".toList) 3 ( "advanced".toList) none = [] := by decide

/- ===== FrameworkSpecialist and FrameworkRouter
       (src/src/agents/framework_router.py) ===== -/

/-- Modelled from the spec: the FRAMEWORK_SPECIALIST_PROMPT template
(src/src/prompts is not under src/ and prompt wording is a stated
non-goal, spec section 1); modelled as concatenation of its three
substituted inputs. -/
def FRAMEWORK_SPECIALIST_PROMPT_format (framework_name search_results question : List Char) :
    List Char :=
  framework_name ++ search_results ++ question

/-- The fixed quota/availability warning result (framework_router.py
lines 51-56). -/
def quotaFailResult (name : List Char) : AgentResp :=
  AgentResp.qa
    ( "⚠️ Couldn\x27t find information about ".toList ++ name ++
      ". Web search quota may be exceeded.".toList)
    [] false (some name)

/-- The FrameworkSpecialist error result (framework_router.py
lines 106-111). -/
def fwErrorResult (name e : List Char) : AgentResp :=
  AgentResp.qa
    ( "❌ Error querying ".toList ++ name ++ " information: ".toList ++ e)
    [] false (some name)

/-- FrameworkSpecialist.query (framework_router.py lines 31-111):
web search (which cannot raise, it catches internally), zero hits yield
the quota warning without synthesis, otherwise one synthesis call; a
raised synthesis error is caught into a `success=false` result. -/
def FrameworkSpecialist.query (name : List Char) (client : TavilyClient) (llm : LlmCap)
    (question : List Char) : AgentResp :=
  let search_results := TavilySearch.search_framework client name question 3
  if search_results.isEmpty then quotaFailResult name
  else
    let context := get_combined_context search_results
    match llm.invoke
        (FRAMEWORK_SPECIALIST_PROMPT_format (capitalizeL name) context question) with
    | Except.error e => fwErrorResult name e
    | Except.ok answer =>
      AgentResp.qa answer
        (search_results.map (fun r => SourceVal.web
          { title := r.title, url := r.url, score := r.score }))
        true (some name)

/-- The six keys of the specialists registry (framework_router.py
lines 119-126). -/
def registryKeys : List (List Char) :=
  [ "langchain".toList, "llamaindex".toList, "crewai".toList,
    "autogen".toList, "haystack".toList, "generic".toList]

/-- Python `framework or "generic"` on an optional string. -/
def pyOrGeneric : Option (List Char) → List Char
  | none => "generic".toList
  | some s => if s.isEmpty then "generic".toList else s

/-- The specialist selection of FrameworkRouter.query: normalize with
`.lower()` (no trimming), then `specialists.get(name, generic)`; the
returned value is the chosen specialist's `framework_name`
(framework_router.py lines 140-143). -/
def FrameworkRouter.select (framework : Option (List Char)) : List Char :=
  let fw := lowerL (pyOrGeneric framework)
  if fw ∈ registryKeys then fw else "generic".toList

/-- FrameworkRouter.query (framework_router.py lines 128-151). -/
def FrameworkRouter.query (client : TavilyClient) (llm : LlmCap)
    (question : List Char) (framework : Option (List Char)) : AgentResp :=
  FrameworkSpecialist.query (FrameworkRouter.select framework) client llm question

example : FrameworkRouter.select (some ( " langchain ".toList)) = "generic".toList := by decide
example : FrameworkRouter.select (some ( "LangChain".toList)) = "langchain".toList := by decide
example : FrameworkRouter.select none = "generic".toList := by decide

/- ===== CodeGenerator (src/src/agents/code_generator.py) ===== -/

/-- Modelled from the spec: the CODE_GENERATOR_PROMPT template
(src/src/prompts is not under src/ and prompt wording is a stated
non-goal, spec section 1); modelled as concatenation of its three
substituted inputs. -/
def CODE_GENERATOR_PROMPT_format (user_query sdk_context framework_context : List Char) :
    List Char :=
  user_query ++ sdk_context ++ framework_context

/-- Python `ctx or default` on an optional string (code_generator.py
lines 43-44). -/
def ctxOrDefault (ctx : Option (List Char)) (default : List Char) : List Char :=
  match ctx with
  | none => default
  | some s => if s.isEmpty then default else s

/-- CodeGenerator.generate (code_generator.py lines 24-89): one generator
call with both contexts substituted (a fixed placeholder when a context is
falsy), parsed by the SectionExtractor; a raised generation error is
caught into a `success=false` result with an inline error comment. -/
def CodeGenerator.generate (llm : LlmCap) (user_query : List Char)
    (sdk_context framework_context : Option (List Char)) : AgentResp :=
  let sdk_ctx := ctxOrDefault sdk_context ( "No specific SDK context provided.".toList)
  let framework_ctx :=
    ctxOrDefault framework_context ( "No specific framework context provided.".toList)
  match llm.invoke (CODE_GENERATOR_PROMPT_format user_query sdk_ctx framework_ctx) with
  | Except.error e =>
    AgentResp.codeR ( "# Error generating code: ".toList ++ e) [] [] [] false
  | Except.ok raw =>
    let p := parse_response raw
    AgentResp.codeR p.code p.explanation p.cost_estimate p.gotchas true

/- ===== ChatOrchestrator dispatch and composition
       (src/src/agents/orchestrator.py) ===== -/

/-- The Python error message of `True.lower()`. -/
def lowerBoolErr : List Char :=
  "\x27bool\x27 object has no attribute \x27lower\x27".toList

/-- The Python error message of `None.capitalize()`. -/
def capNoneErr : List Char :=
  "\x27NoneType\x27 object has no attribute \x27capitalize\x27".toList

/-- The Python error message of `True.capitalize()` / `False.capitalize()`. -/
def capBoolErr : List Char :=
  "\x27bool\x27 object has no attribute \x27capitalize\x27".toList

/-- The Python string key "needs_sdk". -/
def kNeedsSdk : List Char := "needs_sdk".toList

/-- The Python string key "needs_framework". -/
def kNeedsFramework : List Char := "needs_framework".toList

/-- The Python string key "needs_code". -/
def kNeedsCode : List Char := "needs_code".toList

/-- The Python string key "framework_name". -/
def kFrameworkName : List Char := "framework_name".toList

/-- The Python response-map key "sdk". -/
def kSdk : List Char := "sdk".toList

/-- The Python response-map key "framework". -/
def kFramework : List Char := "framework".toList

/-- The Python response-map key "code". -/
def kCode : List Char := "code".toList

/-- The `framework_name` value handed from the raw intent dict to
FrameworkRouter.query (orchestrator.py lines 142-144): a JSON string is
passed through, an absent key or null is `None`; through the router's
`(framework or "generic").lower()`, a falsy boolean behaves like `None`
while a truthy boolean raises `AttributeError`. -/
def fwNameArg : Option JVal → Except (List Char) (Option (List Char))
  | none => Except.ok none
  | some JVal.jnull => Except.ok none
  | some (JVal.jstr s) => Except.ok (some s)
  | some (JVal.jbool false) => Except.ok none
  | some (JVal.jbool true) => Except.error lowerBoolErr

/-- Python `responses.get(key, \x7b\x7d).get("answer", "")`
(orchestrator.py lines 150-151). -/
def answerOfOpt : Option AgentResp → List Char
  | none => []
  | some v => getAnswer v

/-- The context argument passed to CodeGenerator.generate for one
predecessor: `ctx if ctx else None` (orchestrator.py lines 156-157). -/
def ctx_arg (key : List Char) (m : RouteMap) : Option (List Char) :=
  let s := answerOfOpt (mapGet m key)
  if s.isEmpty then none else some s

/-- The capability bundle consumed by one request. -/
structure Caps where
  classifier : Except (List Char) (List Char)
  retriever : RetrieverCap
  sdk_llm : LlmCap
  client : TavilyClient
  fw_llm : LlmCap
  code_llm : LlmCap

/-- The first two branches of ChatOrchestrator._route_to_agents: the
RetrievalQA and FrameworkSearch predecessors, in insertion order
(orchestrator.py lines 132-145). -/
def route_predecessors (caps : Caps) (query : List Char) (intent : JObj) :
    Except (List Char) RouteMap :=
  let r1 : RouteMap :=
    if intentTruthy intent kNeedsSdk then
      [( "sdk".toList, SDKAgent.query caps.retriever caps.sdk_llm query)]
    else []
  if intentTruthy intent kNeedsFramework then
    match fwNameArg (dictGet intent kFrameworkName) with
    | Except.error e => Except.error e
    | Except.ok fn =>
      Except.ok (r1 ++ [( "framework".toList,
        FrameworkRouter.query caps.client caps.fw_llm query fn)])
  else Except.ok r1

/-- ChatOrchestrator._route_to_agents (orchestrator.py lines 121-161):
both predecessors, then CodeGenerator with the contexts drawn from the
predecessors' final results. -/
def route_to_agents (caps : Caps) (query : List Char) (intent : JObj) :
    Except (List Char) RouteMap :=
  match route_predecessors caps query intent with
  | Except.error e => Except.error e
  | Except.ok r2 =>
    Except.ok
      (if intentTruthy intent kNeedsCode then
        r2 ++ [( "code".toList,
          CodeGenerator.generate caps.code_llm query
            (ctx_arg kSdk r2) (ctx_arg kFramework r2))]
      else r2)

/-- ChatOrchestrator._format_code_response (orchestrator.py lines 213-231):
on a non-code dict every `.get` is falsy and the result is empty. -/
def format_code_response : AgentResp → List Char
  | AgentResp.qa _ _ _ _ => []
  | AgentResp.codeR c e ce g _ =>
    (if !c.isEmpty then "```python\n".toList ++ c ++ "\n```\n\n".toList else []) ++
    (if !e.isEmpty then "**Explanation:**\n".toList ++ e ++ "\n\n".toList else []) ++
    (if !ce.isEmpty then "**Estimated Cost:**\n".toList ++ ce ++ "\n\n".toList else []) ++
    (if !g.isEmpty then "**Gotchas:**\n".toList ++ g ++ "\n\n".toList else [])

/-- Rendering one SDK source line: `source["page"]` raises `KeyError` on a
web-source dict (orchestrator.py line 241). -/
def render_doc_src (p : Nat × SourceVal) : Except (List Char) (List Char) :=
  match p.2 with
  | SourceVal.doc d => Except.ok (natChars p.1 ++ ". Page ".toList ++ d.page ++ "\x0a".toList)
  | SourceVal.web _ => Except.error ( "KeyError: \x27page\x27".toList)

/-- Rendering one framework source line: `source["title"]` raises
`KeyError` on a document-source dict (orchestrator.py line 248). -/
def render_web_src (p : Nat × SourceVal) : Except (List Char) (List Char) :=
  match p.2 with
  | SourceVal.web w =>
    Except.ok (natChars p.1 ++ ". [".toList ++ w.title ++ "](".toList ++ w.url ++ ")\x0a".toList)
  | SourceVal.doc _ => Except.error ( "KeyError: \x27title\x27".toList)

/-- The Python `for` loop over sources: render each element, propagating
the first raised error (orchestrator.py lines 240-241 and 247-248). -/
def mapMExcept (f : α → Except E β) : List α → Except E (List β)
  | [] => Except.ok []
  | a :: as =>
    match f a with
    | Except.error e => Except.error e
    | Except.ok b =>
      match mapMExcept f as with
      | Except.error e => Except.error e
      | Except.ok bs => Except.ok (b :: bs)

/-- The SDK-sources block of _add_sources (orchestrator.py lines 238-242):
skipped when the entry is absent or its `sources` value is falsy. -/
def sdk_sources_block (m : RouteMap) : Except (List Char) (List Char) :=
  match mapGet m kSdk with
  | some v =>
    match getSources v with
    | some srcs =>
      if srcs.isEmpty then Except.ok []
      else
        match mapMExcept render_doc_src (enumFrom 1 (srcs.take 3)) with
        | Except.error e => Except.error e
        | Except.ok rs =>
          Except.ok ( "**SDK Documentation Sources:**\x0a".toList ++ joinL rs ++ "\x0a".toList)
    | none => Except.ok []
  | none => Except.ok []

/-- The framework-sources block of _add_sources (orchestrator.py
lines 245-249). -/
def fw_sources_block (m : RouteMap) : Except (List Char) (List Char) :=
  match mapGet m kFramework with
  | some v =>
    match getSources v with
    | some srcs =>
      if srcs.isEmpty then Except.ok []
      else
        match mapMExcept render_web_src (enumFrom 1 (srcs.take 3)) with
        | Except.error e => Except.error e
        | Except.ok rs =>
          Except.ok ( "**Framework Sources:**\x0a".toList ++ joinL rs ++ "\x0a".toList)
    | none => Except.ok []
  | none => Except.ok []

/-- ChatOrchestrator._add_sources (orchestrator.py lines 233-251):
SDK sources first (at most 3, original order), then framework sources
(at most 3, original order). -/
def add_sources (m : RouteMap) : Except (List Char) (List Char) :=
  match sdk_sources_block m with
  | Except.error e => Except.error e
  | Except.ok sdkPart =>
    match fw_sources_block m with
    | Except.error e => Except.error e
    | Except.ok fwPart => Except.ok (sdkPart ++ fwPart)

/-- The header name for the framework part:
`intent.get("framework_name", "framework").capitalize()`
(orchestrator.py lines 194-195). -/
def synthFwHeaderName : Option JVal → Except (List Char) (List Char)
  | none => Except.ok (capitalizeL kFramework)
  | some (JVal.jstr s) => Except.ok (capitalizeL s)
  | some JVal.jnull => Except.error capNoneErr
  | some (JVal.jbool _) => Except.error capBoolErr

/-- The fixed apology string (orchestrator.py line 211). -/
def apologyMsg : List Char :=
  "I couldn\x27t process your query. Please try rephrasing.".toList

/-- ChatOrchestrator._synthesize_response (orchestrator.py lines 163-211). -/
def synthesize_response (_query : List Char) (m : RouteMap) (intent : JObj) :
    Except (List Char) (List Char) :=
  if m.length = 1 then
    match m with
    | (name, v) :: _ =>
      if name = kCode then Except.ok (format_code_response v)
      else Except.ok (getAnswer v)
    | [] => Except.ok apologyMsg
  else if m.length > 1 then
    let sdkPart :=
      match mapGet m kSdk with
      | some v => "**SDK Agent Response:**\x0a".toList ++ getAnswer v ++ "\x0a\x0a".toList
      | none => []
    let fwPartE : Except (List Char) (List Char) :=
      match mapGet m kFramework with
      | some v =>
        match synthFwHeaderName (dictGet intent kFrameworkName) with
        | Except.error e => Except.error e
        | Except.ok fn =>
          Except.ok ( "**".toList ++ fn ++ " Specialist Response:**\x0a".toList ++
            getAnswer v ++ "\x0a\x0a".toList)
      | none => Except.ok []
    match fwPartE with
    | Except.error e => Except.error e
    | Except.ok fwPart =>
      let codePart :=
        match mapGet m kCode with
        | some v =>
          "**Code Generator Response:**\x0a".toList ++ format_code_response v ++
            "\x0a\x0a".toList
        | none => []
      match add_sources m with
      | Except.error e => Except.error e
      | Except.ok srcs =>
        Except.ok ( "🔄 **Multi-Agent Response:**\x0a\x0a".toList ++ sdkPart ++ fwPart ++
          codePart ++ srcs)
  else Except.ok apologyMsg

/-- The result dict of ChatOrchestrator.process_query. -/
structure ProcessResult where
  answer : List Char
  intent : JObj
  agent_responses : RouteMap
  success : Bool
deriving DecidableEq, Repr

/-- The generic total-failure result (orchestrator.py lines 72-77). -/
def totalFailureResult (e : List Char) : ProcessResult :=
  { answer := "❌ An error occurred: ".toList ++ e ++
      "\x0a\x0aPlease try rephrasing your question.".toList
  , intent := []
  , agent_responses := []
  , success := false }

/-- ChatOrchestrator.process_query (orchestrator.py lines 36-77):
classification (which never raises), dispatch, composition; any error
escaping dispatch or composition is caught at this boundary and converted
into the generic `success=false` result. -/
def process_query (caps : Caps) (query : List Char) : ProcessResult :=
  match route_to_agents caps query (classify_intent caps.classifier) with
  | Except.error e => totalFailureResult e
  | Except.ok responses =>
    match synthesize_response query responses (classify_intent caps.classifier) with
    | Except.error e => totalFailureResult e
    | Except.ok final =>
      { answer := final, intent := classify_intent caps.classifier
      , agent_responses := responses, success := true }

/- ===== Shared lemmas about the string primitives ===== -/

theorem isPrefixL_append_left (a b l : List Char) (h : isPrefixL (a ++ b) l = true) :
    isPrefixL a l = true := by
  induction a generalizing l with
  | nil => rfl
  | cons x xs ih =>
    cases l with
    | nil => simp [isPrefixL] at h
    | cons y ys =>
      simp only [List.cons_append, isPrefixL, Bool.and_eq_true, decide_eq_true_eq] at h ⊢
      exact ⟨h.1, ih ys h.2⟩

theorem containsL_append_left (a b l : List Char) (h : containsL (a ++ b) l = true) :
    containsL a l = true := by
  induction l with
  | nil =>
    simp only [containsL] at h ⊢
    exact isPrefixL_append_left a b [] h
  | cons c rest ih =>
    simp only [containsL, Bool.or_eq_true] at h ⊢
    rcases h with h | h
    · exact Or.inl (isPrefixL_append_left a b (c :: rest) h)
    · exact Or.inr (ih h)

/-- No fence marker in the text at all makes the code extractor return
the whole stripped text (code_generator.py line 131). -/
theorem extract_code_block_no_fence (text : List Char)
    (h : containsL ( "```".toList) text = false) :
    extract_code_block text = stripL text := by
  have happ : ( "```python".toList) = ( "```".toList) ++ ( "python".toList) := by decide
  have h2 : containsL ( "```python".toList) text = false := by
    cases hc : containsL ( "```python".toList) text
    · rfl
    · rw [happ] at hc
      have ht := containsL_append_left _ _ _ hc
      rw [ht] at h
      exact Bool.noConfusion h
  unfold extract_code_block
  rw [h2, h]
  simp

/-- When none of the candidate markers occurs in the text the marker loop
returns the empty string (code_generator.py line 157). -/
theorem extract_section_go_none (text : List Char) (ms : List (List Char))
    (h : ∀ m ∈ ms, containsL m text = false) :
    extract_section_go text ms = [] := by
  induction ms with
  | nil => rfl
  | cons m rest ih =>
    have hm := h m (List.mem_cons_self m rest)
    simp [extract_section_go, hm]
    exact ih (fun x hx => h x (List.mem_cons_of_mem m hx))

/- ===== Claim C1 ===== -/

/-- C1 counterexample: on input with no fenced block at all the code field
is the entire trimmed input, not the empty string; and for a bare fence
the leading language-tag line is kept unless the tag is python/py. -/
theorem C1_counterexample :
    extract_code_block ( "hello".toList) = "hello".toList ∧
    "hello".toList ≠ ([] : List Char) ∧
    extract_code_block ( "```js\ncode\n```".toList) = "js\ncode".toList ∧
    "js\ncode".toList ≠ "code".toList := by
  refine ⟨by decide, by decide, by decide, by decide⟩

/-- C1 (amended): for every input text containing no fence marker at all,
code extraction returns the ENTIRE input stripped of surrounding
whitespace (never the empty string); when a python-tagged fence is present
its body is preferred; otherwise the first fenced block is used, with a
leading bare language-tag line stripped only when that tag is `python` or
`py`. -/
theorem C1_theorem :
    (∀ text : List Char, containsL ( "```".toList) text = false →
      extract_code_block text = stripL text) ∧
    extract_code_block ( "x```js\na\n```y```python\nb\n```".toList) = "b".toList ∧
    extract_code_block ( "```\npython\nbody\n```".toList) = "body".toList ∧
    extract_code_block ( "```js\ncode\n```".toList) = "js\ncode".toList := by
  refine ⟨extract_code_block_no_fence, by decide, by decide, by decide⟩

/-- C1 witness: the universal no-fence clause applied at a concrete input. -/
theorem C1_witness :
    extract_code_block ( "plain text answer".toList) = stripL ( "plain text answer".toList) :=
  C1_theorem.1 ( "plain text answer".toList) (by decide)

/- ===== Claim C5 ===== -/

/-- C5 counterexample: extracting `Estimated Cost` stops at the first
stop marker in the fixed list order (`**Explanation`), not at the nearest
other field label (`**Gotchas`), so another field's label text leaks into
the extracted value. -/
theorem C5_counterexample :
    extract_section ( "**Estimated Cost:** five **Gotchas:** g **Explanation:** e".toList)
        ( "Estimated Cost".toList) = "five **Gotchas:** g".toList ∧
    "five **Gotchas:** g".toList ≠ "five".toList ∧
    containsL ( "**Gotchas".toList) ( "five **Gotchas:** g".toList) = true := by
  refine ⟨by decide, by decide, by decide⟩

/-- C5 (amended): the extractor scans for the first accepted label of the
field; the value is the substring after that label truncated at the first
stop marker found in the fixed list order `**Explanation`,
`**Estimated Cost`, `**Gotchas`, `**`, `\n\n##` (splitting at that
marker's first occurrence, which need not be the nearest other label, and
plain `Label:` spellings never act as boundaries), trimmed; if none of the
field's labels are present the field is the empty string, never omitted. -/
theorem C5_theorem :
    (∀ text name : List Char,
      (∀ m ∈ section_markers name, containsL m text = false) →
      extract_section text name = []) ∧
    extract_section
        ( "**Explanation:**\nPrints one.\n**Estimated Cost:**\nFree\n**Gotchas:**\nNone.".toList)
        ( "Explanation".toList) = "Prints one.".toList ∧
    extract_section
        ( "**Explanation:**\nPrints one.\n**Estimated Cost:**\nFree\n**Gotchas:**\nNone.".toList)
        ( "Estimated Cost".toList) = "Free".toList ∧
    extract_section
        ( "**Explanation:**\nPrints one.\n**Estimated Cost:**\nFree\n**Gotchas:**\nNone.".toList)
        ( "Gotchas".toList) = "None.".toList ∧
    extract_section ( "Explanation: plain spelling works".toList)
        ( "Explanation".toList) = "plain spelling works".toList := by
  exact ⟨fun text name h => extract_section_go_none text _ h,
    by decide, by decide, by decide, by decide⟩

/-- C5 witness: the universal no-label clause applied at a concrete input. -/
theorem C5_witness :
    extract_section ( "nothing labelled here".toList) ( "Explanation".toList) = [] :=
  C5_theorem.1 ( "nothing labelled here".toList) ( "Explanation".toList) (by decide)

/- ===== Claim C9 ===== -/

/-- C9 counterexample: on text containing no recognized labels (and no
fence) the `code` field is the whole trimmed input, not the empty string,
so not all four fields are empty. -/
theorem C9_counterexample :
    (parse_response ( "hello".toList)).code = "hello".toList ∧
    "hello".toList ≠ ([] : List Char) := by
  refine ⟨by decide, by decide⟩

/-- C9 (amended): extract is deterministic and pure — identical input
text always yields identical values for all four fields; on any text
containing no recognized labels and no fence marker, the explanation,
cost-estimate and gotchas fields are empty strings while the code field
is the whole input trimmed. -/
theorem C9_theorem :
    (∀ t1 t2 : List Char, t1 = t2 → parse_response t1 = parse_response t2) ∧
    (∀ t : List Char,
      containsL ( "```".toList) t = false →
      (∀ m ∈ section_markers ( "Explanation".toList), containsL m t = false) →
      (∀ m ∈ section_markers ( "Estimated Cost".toList), containsL m t = false) →
      (∀ m ∈ section_markers ( "Gotchas".toList), containsL m t = false) →
      parse_response t =
        { code := stripL t, explanation := [], cost_estimate := [], gotchas := [] }) := by
  constructor
  · intro t1 t2 h
    rw [h]
  · intro t hf he hc hg
    unfold parse_response extract_section
    rw [extract_code_block_no_fence t hf, extract_section_go_none t _ he,
      extract_section_go_none t _ hc, extract_section_go_none t _ hg]

/-- C9 witness: both clauses applied at concrete inputs. -/
theorem C9_witness :
    parse_response ( "just prose".toList) = parse_response ( "just prose".toList) ∧
    parse_response ( "just prose".toList) =
      { code := stripL ( "just prose".toList), explanation := []
      , cost_estimate := [], gotchas := [] } :=
  ⟨C9_theorem.1 ( "just prose".toList) ( "just prose".toList) rfl,
   C9_theorem.2 ( "just prose".toList) (by decide) (by decide) (by decide) (by decide)⟩

/- ===== Claim C3 ===== -/

/-- C3 counterexample: a parseable classifier response with all required
keys missing (the empty JSON object) is returned as-is — the empty dict,
in which `needs_sdk` is absent — not replaced by the fixed fallback intent
with `needs_sdk = true`. -/
theorem C3_counterexample :
    classify_intent (Except.ok ( "\x7b\x7d".toList)) = ([] : JObj) ∧
    ([] : JObj) ≠ fallbackIntent ∧
    dictGet ([] : JObj) kNeedsSdk = none := by
  refine ⟨by decide, by decide, by decide⟩

/-- C3 (amended): classify never propagates an error — a raising
classifier call or a non-parseable (fence-stripped) response yields the
fixed fallback intent; but a parseable response is returned as-is even
when required keys are missing, with absent keys defaulting only at the
point of use downstream. -/
theorem C3_theorem :
    (∀ e : List Char, classify_intent (Except.error e) = fallbackIntent) ∧
    (∀ content : List Char, jsonParse (strip_fence (stripL content)) = none →
      classify_intent (Except.ok content) = fallbackIntent) ∧
    (∀ (content : List Char) (o : JObj),
      jsonParse (strip_fence (stripL content)) = some o →
      classify_intent (Except.ok content) = o) := by
  refine ⟨fun e => rfl, ?_, ?_⟩
  · intro content h
    simp [classify_intent, classify_parse, h]
  · intro content o h
    simp [classify_intent, classify_parse, h]

/-- C3 witness: the fallback clause applied to a truncated-fence garbage
response, and the parse clause applied to a fenced object. -/
theorem C3_witness :
    classify_intent (Except.ok ( "```json\x7b not valid".toList)) = fallbackIntent ∧
    classify_intent (Except.ok ( "```json\n\x7b\x22needs_code\x22: true\x7d\n```".toList)) =
      [( "needs_code".toList, JVal.jbool true)] :=
  ⟨C3_theorem.2.1 ( "```json\x7b not valid".toList) (by decide),
   C3_theorem.2.2 ( "```json\n\x7b\x22needs_code\x22: true\x7d\n```".toList)
     [( "needs_code".toList, JVal.jbool true)] (by decide)⟩

/- ===== Claim C2 ===== -/

/-- A generator capability with a fixed successful response, used to
exercise the dispatcher on concrete inputs. -/
def C2llm : LlmCap := { invoke := fun _ => Except.ok ( "resp".toList) }

/-- A concrete capability bundle for exercising the dispatcher. -/
def C2caps : Caps :=
  { classifier := Except.ok []
  , retriever := { is_indexed := false, search := Except.ok [] }
  , sdk_llm := C2llm
  , client := fun _ => Except.ok []
  , fw_llm := C2llm
  , code_llm := C2llm }

/-- C2 counterexample: when CodeGen is requested and no predecessor was
invoked, the dispatcher hands CodeGenerator.generate `none` (Python
`None`) for both context arguments — not the empty-string sentinel. -/
theorem C2_counterexample :
    route_to_agents C2caps ( "q".toList) [( "needs_code".toList, JVal.jbool true)] =
      Except.ok [( "code".toList, CodeGenerator.generate C2llm ( "q".toList) none none)] ∧
    (none : Option (List Char)) ≠ some ([] : List Char) := by
  exact ⟨rfl, by decide⟩

/-- C2 (amended): CodeGen, when requested, is invoked last, after both
predecessors have settled, with its context arguments computed from the
predecessors' final results; a predecessor that was not invoked or whose
answer text is empty contributes `None` (not the empty string), and an
invoked predecessor with a non-empty answer — including the human-readable
error answer of a FAILED predecessor — contributes that answer text;
CodeGenerator.generate internally replaces a `None`/empty context by a
fixed placeholder sentence. -/
theorem C2_theorem :
    ∀ (caps : Caps) (q : List Char) (intent : JObj) (m2 : RouteMap),
      intentTruthy intent kNeedsCode = true →
      route_predecessors caps q intent = Except.ok m2 →
      route_to_agents caps q intent = Except.ok (m2 ++ [( "code".toList,
        CodeGenerator.generate caps.code_llm q
          (ctx_arg kSdk m2) (ctx_arg kFramework m2))]) ∧
      (mapGet m2 kSdk = none → ctx_arg kSdk m2 = none) ∧
      (∀ v, mapGet m2 kSdk = some v → getAnswer v = [] →
        ctx_arg kSdk m2 = none) ∧
      (∀ v, mapGet m2 kSdk = some v → getAnswer v ≠ [] →
        ctx_arg kSdk m2 = some (getAnswer v)) ∧
      (mapGet m2 kFramework = none → ctx_arg kFramework m2 = none) ∧
      (∀ v, mapGet m2 kFramework = some v → getAnswer v = [] →
        ctx_arg kFramework m2 = none) ∧
      (∀ v, mapGet m2 kFramework = some v → getAnswer v ≠ [] →
        ctx_arg kFramework m2 = some (getAnswer v)) := by
  intro caps q intent m2 hc hp
  refine ⟨?_, ?_, ?_, ?_, ?_, ?_, ?_⟩
  · simp [route_to_agents, hp, hc]
  · intro h
    simp [ctx_arg, answerOfOpt, h]
  · intro v h hv
    simp [ctx_arg, answerOfOpt, h, hv]
  · intro v h hv
    cases hg : getAnswer v with
    | nil => exact absurd hg hv
    | cons a as => simp [ctx_arg, answerOfOpt, h, hg]
  · intro h
    simp [ctx_arg, answerOfOpt, h]
  · intro v h hv
    simp [ctx_arg, answerOfOpt, h, hv]
  · intro v h hv
    cases hg : getAnswer v with
    | nil => exact absurd hg hv
    | cons a as => simp [ctx_arg, answerOfOpt, h, hg]

/-- C2 witness: the dispatch clause applied at a concrete intent that
requests only CodeGen. -/
theorem C2_witness :
    route_to_agents C2caps ( "q2".toList) [( "needs_code".toList, JVal.jbool true)] =
      Except.ok ([] ++ [( "code".toList, CodeGenerator.generate C2caps.code_llm ( "q2".toList)
        (ctx_arg kSdk []) (ctx_arg kFramework []))]) :=
  (C2_theorem C2caps ( "q2".toList) [( "needs_code".toList, JVal.jbool true)] []
    (by decide) rfl).1

/- ===== Claim C4 ===== -/

/-- A capability bundle whose classifier yields an intent with a boolean
`framework_name`, which makes the dispatcher raise (`True.lower()`). -/
def C4caps : Caps :=
  { classifier := Except.ok
      ( "\x7b\x22needs_framework\x22: true, \x22framework_name\x22: true\x7d".toList)
  , retriever := { is_indexed := false, search := Except.ok [] }
  , sdk_llm := C2llm
  , client := fun _ => Except.ok []
  , fw_llm := C2llm
  , code_llm := C2llm }

/-- C4: every error escaping the dispatch or composition stage is caught
at process_query's boundary and converted into the generic
`success=false` result whose answer is a fixed human-readable message
around the error text; process_query itself is a total function and never
propagates a fault. -/
theorem C4_theorem :
    ∀ (caps : Caps) (q e : List Char),
      (route_to_agents caps q (classify_intent caps.classifier) = Except.error e ∨
        (∃ m, route_to_agents caps q (classify_intent caps.classifier) = Except.ok m ∧
          synthesize_response q m (classify_intent caps.classifier) = Except.error e)) →
      process_query caps q = totalFailureResult e ∧
      (totalFailureResult e).success = false ∧
      (totalFailureResult e).answer = "❌ An error occurred: ".toList ++ e ++
        "\x0a\x0aPlease try rephrasing your question.".toList := by
  intro caps q e h
  obtain h1 | ⟨m, h1, h2⟩ := h
  · refine ⟨?_, rfl, rfl⟩
    unfold process_query
    rw [h1]
  · refine ⟨?_, rfl, rfl⟩
    unfold process_query
    simp only [h1, h2]

/-- C4 witness: a dispatch-stage error (boolean `framework_name` reaching
the router's `.lower()`) is converted into the total-failure result. -/
theorem C4_witness :
    process_query C4caps ( "q".toList) = totalFailureResult lowerBoolErr ∧
    (totalFailureResult lowerBoolErr).success = false ∧
    (totalFailureResult lowerBoolErr).answer = "❌ An error occurred: ".toList ++
      lowerBoolErr ++ "\x0a\x0aPlease try rephrasing your question.".toList :=
  C4_theorem C4caps ( "q".toList) lowerBoolErr (Or.inl rfl)

/- ===== Claim C6 ===== -/

/-- C6: when the backing index is not ready, SDKAgent.query returns the
fixed not-indexed failure for EVERY search outcome and every generator
(so neither is consulted); when the index is ready and retrieval returns
zero passages, it returns the fixed no-relevant-information failure with
empty sources for EVERY generator (so the generator is never invoked). -/
theorem C6_theorem :
    (∀ (s : Except (List Char) (List Doc)) (llm : LlmCap) (q : List Char),
      SDKAgent.query { is_indexed := false, search := s } llm q =
        AgentResp.qa notIndexedMsg [] false none) ∧
    (∀ (llm : LlmCap) (q : List Char),
      SDKAgent.query { is_indexed := true, search := Except.ok [] } llm q =
        AgentResp.qa noInfoMsg [] false none) := by
  exact ⟨fun s llm q => rfl, fun llm q => rfl⟩

/- ===== Claim C7 ===== -/

/-- C7 counterexample: a whitespace-padded known framework name is NOT
trimmed by the router — `" langchain "` misses the registry and routes to
the generic variant, although case-folding plus trimming (as the claim
states) would produce the registry key `langchain`. -/
theorem C7_counterexample :
    FrameworkRouter.select (some ( " langchain ".toList)) = "generic".toList ∧
    "generic".toList ≠ "langchain".toList ∧
    stripL (lowerL ( " langchain ".toList)) = "langchain".toList ∧
    "langchain".toList ∈ registryKeys := by
  refine ⟨by decide, by decide, by decide, by decide⟩

/-- C7 (amended): the router normalizes the name by lower-casing only
(no trimming); an absent or empty name becomes `generic` directly; a
normalized name that is a registry key selects that variant, and any miss
(unknown, or whitespace-padded) selects the generic variant; the selected
name is always a registry key and the lookup never raises. -/
theorem C7_theorem :
    (∀ fw : Option (List Char), FrameworkRouter.select fw ∈ registryKeys) ∧
    (∀ fw : Option (List Char), lowerL (pyOrGeneric fw) ∉ registryKeys →
      FrameworkRouter.select fw = "generic".toList) ∧
    (∀ fw : Option (List Char), lowerL (pyOrGeneric fw) ∈ registryKeys →
      FrameworkRouter.select fw = lowerL (pyOrGeneric fw)) ∧
    FrameworkRouter.select none = "generic".toList ∧
    FrameworkRouter.select (some []) = "generic".toList ∧
    (∀ (fw : Option (List Char)) (client : TavilyClient) (llm : LlmCap) (q : List Char),
      FrameworkRouter.query client llm q fw =
        FrameworkSpecialist.query (FrameworkRouter.select fw) client llm q) := by
  refine ⟨?_, ?_, ?_, by decide, by decide, fun fw client llm q => rfl⟩
  · intro fw
    by_cases hmem : lowerL (pyOrGeneric fw) ∈ registryKeys
    · simp [FrameworkRouter.select, hmem]
    · simp only [FrameworkRouter.select, hmem, if_false]
      decide
  · intro fw h
    simp [FrameworkRouter.select, h]
  · intro fw h
    simp [FrameworkRouter.select, h]

/-- C7 witness: the miss clause applied to an unknown framework name. -/
theorem C7_witness :
    FrameworkRouter.select (some ( "not-a-framework".toList)) = "generic".toList :=
  C7_theorem.2.1 (some ( "not-a-framework".toList)) (by decide)

/- ===== Claim C10 ===== -/

/-- C10: every exception raised inside the web-search capability call is
caught by the search wrapper, which returns the empty result list; hence
at the FrameworkSpecialist boundary a failed web search is
indistinguishable from zero hits and surfaces as the fixed success=false
quota/availability warning, not as a thrown error or an error-message
result. -/
theorem C10_theorem :
    (∀ (client : TavilyClient) (q : List Char) (mr : Nat) (sd : List Char)
        (doms : Option (List (List Char))) (e : List Char),
      client (mkSearchParams q mr sd doms) = Except.error e →
      TavilySearch.search client q mr sd doms = []) ∧
    (∀ (client : TavilyClient) (llm : LlmCap) (name q e : List Char),
      (∀ p, client p = Except.error e) →
      FrameworkSpecialist.query name client llm q = quotaFailResult name ∧
      FrameworkSpecialist.query name client llm q =
        FrameworkSpecialist.query name (fun _ => Except.ok []) llm q) := by
  constructor
  · intro client q mr sd doms e h
    unfold TavilySearch.search
    rw [h]
  · intro client llm name q e h
    constructor
    · simp [FrameworkSpecialist.query, TavilySearch.search_framework, TavilySearch.search, h]
    · simp [FrameworkSpecialist.query, TavilySearch.search_framework, TavilySearch.search, h]

/- ===== Claim C8 ===== -/

/-- One SDK source line as the spec's composition description renders it
(total; only applied to document sources). -/
def renderDocSourceSpec (p : Nat × SourceVal) : List Char :=
  match p.2 with
  | SourceVal.doc d => natChars p.1 ++ ". Page ".toList ++ d.page ++ "\x0a".toList
  | SourceVal.web _ => []

/-- One framework source line as the spec's composition description
renders it (total; only applied to web sources). -/
def renderWebSourceSpec (p : Nat × SourceVal) : List Char :=
  match p.2 with
  | SourceVal.web w =>
    natChars p.1 ++ ". [".toList ++ w.title ++ "](".toList ++ w.url ++ ")\x0a".toList
  | SourceVal.doc _ => []

/-- The spec-side SDK part of the consolidated sources section
(spec section 4.7: RetrievalQA sources, max 3, original order). -/
def sdk_sources_spec (m : RouteMap) : List Char :=
  match mapGet m kSdk with
  | some v =>
    match getSources v with
    | some srcs =>
      if srcs.isEmpty then []
      else "**SDK Documentation Sources:**\x0a".toList ++
        joinL ((enumFrom 1 (srcs.take 3)).map renderDocSourceSpec) ++ "\x0a".toList
    | none => []
  | none => []

/-- The spec-side framework part of the consolidated sources section
(spec section 4.7: FrameworkSearch sources, max 3, original order). -/
def fw_sources_spec (m : RouteMap) : List Char :=
  match mapGet m kFramework with
  | some v =>
    match getSources v with
    | some srcs =>
      if srcs.isEmpty then []
      else "**Framework Sources:**\x0a".toList ++
        joinL ((enumFrom 1 (srcs.take 3)).map renderWebSourceSpec) ++ "\x0a".toList
    | none => []
  | none => []

/-- The spec-side consolidated sources section: RetrievalQA sources then
FrameworkSearch sources; CodeGen contributes none (spec section 4.7). -/
def sources_spec (m : RouteMap) : List Char :=
  sdk_sources_spec m ++ fw_sources_spec m

/-- The framework header name used by the spec-side composition (the
intent's framework name, defaulting to "framework"). -/
def fwNameStr (intent : JObj) : List Char :=
  match dictGet intent kFrameworkName with
  | some (JVal.jstr s) => s
  | _ => "framework".toList

/-- The spec-side multi-result composition (spec section 4.7): each
present kind rendered behind its header in the fixed priority order
RetrievalQA, FrameworkSearch, CodeGen, followed by the consolidated
sources section. -/
def compose_spec (m : RouteMap) (intent : JObj) : List Char :=
  "🔄 **Multi-Agent Response:**\x0a\x0a".toList ++
  (match mapGet m kSdk with
   | some v => "**SDK Agent Response:**\x0a".toList ++ getAnswer v ++ "\x0a\x0a".toList
   | none => []) ++
  (match mapGet m kFramework with
   | some v => "**".toList ++ capitalizeL (fwNameStr intent) ++
       " Specialist Response:**\x0a".toList ++ getAnswer v ++ "\x0a\x0a".toList
   | none => []) ++
  (match mapGet m kCode with
   | some v =>
     "**Code Generator Response:**\x0a".toList ++ format_code_response v ++ "\x0a\x0a".toList
   | none => []) ++
  sources_spec m

theorem mapMExcept_doc (l : List SourceVal)
    (h : ∀ s ∈ l, ∃ d, s = SourceVal.doc d) :
    ∀ i, mapMExcept render_doc_src (enumFrom i l) =
      Except.ok ((enumFrom i l).map renderDocSourceSpec) := by
  induction l with
  | nil => intro i; rfl
  | cons s rest ih =>
    intro i
    obtain ⟨d, rfl⟩ := h s (List.mem_cons_self s rest)
    simp only [enumFrom, mapMExcept, render_doc_src, List.map_cons]
    rw [ih (fun x hx => h x (List.mem_cons_of_mem _ hx)) (i + 1)]
    rfl

theorem mapMExcept_web (l : List SourceVal)
    (h : ∀ s ∈ l, ∃ w, s = SourceVal.web w) :
    ∀ i, mapMExcept render_web_src (enumFrom i l) =
      Except.ok ((enumFrom i l).map renderWebSourceSpec) := by
  induction l with
  | nil => intro i; rfl
  | cons s rest ih =>
    intro i
    obtain ⟨w, rfl⟩ := h s (List.mem_cons_self s rest)
    simp only [enumFrom, mapMExcept, render_web_src, List.map_cons]
    rw [ih (fun x hx => h x (List.mem_cons_of_mem _ hx)) (i + 1)]
    rfl

theorem sdk_sources_block_ok (m : RouteMap)
    (hdoc : ∀ v, mapGet m kSdk = some v →
      ∀ s ∈ (getSources v).getD [], ∃ d, s = SourceVal.doc d) :
    sdk_sources_block m = Except.ok (sdk_sources_spec m) := by
  unfold sdk_sources_block sdk_sources_spec
  cases hs : mapGet m kSdk with
  | none => rfl
  | some v =>
    dsimp only
    cases hv : getSources v with
    | none => rfl
    | some srcs =>
      dsimp only
      by_cases he : srcs.isEmpty = true
      · rw [if_pos he, if_pos he]
      · have hd : ∀ s ∈ srcs.take 3, ∃ d, s = SourceVal.doc d := by
          intro s hsmem
          refine hdoc v hs s ?_
          rw [hv]
          exact List.take_subset 3 srcs hsmem
        rw [if_neg he, if_neg he, mapMExcept_doc (srcs.take 3) hd 1]

theorem fw_sources_block_ok (m : RouteMap)
    (hweb : ∀ v, mapGet m kFramework = some v →
      ∀ s ∈ (getSources v).getD [], ∃ w, s = SourceVal.web w) :
    fw_sources_block m = Except.ok (fw_sources_spec m) := by
  unfold fw_sources_block fw_sources_spec
  cases hs : mapGet m kFramework with
  | none => rfl
  | some v =>
    dsimp only
    cases hv : getSources v with
    | none => rfl
    | some srcs =>
      dsimp only
      by_cases he : srcs.isEmpty = true
      · rw [if_pos he, if_pos he]
      · have hd : ∀ s ∈ srcs.take 3, ∃ w, s = SourceVal.web w := by
          intro s hsmem
          refine hweb v hs s ?_
          rw [hv]
          exact List.take_subset 3 srcs hsmem
        rw [if_neg he, if_neg he, mapMExcept_web (srcs.take 3) hd 1]

theorem add_sources_ok (m : RouteMap)
    (hdoc : ∀ v, mapGet m kSdk = some v →
      ∀ s ∈ (getSources v).getD [], ∃ d, s = SourceVal.doc d)
    (hweb : ∀ v, mapGet m kFramework = some v →
      ∀ s ∈ (getSources v).getD [], ∃ w, s = SourceVal.web w) :
    add_sources m = Except.ok (sources_spec m) := by
  unfold add_sources sources_spec
  rw [sdk_sources_block_ok m hdoc, fw_sources_block_ok m hweb]

theorem synthesize_multi_ok (q : List Char) (m : RouteMap) (intent : JObj)
    (hlen : 2 ≤ m.length)
    (hfw : ∀ v, mapGet m kFramework = some v →
      dictGet intent kFrameworkName = none ∨
      ∃ s, dictGet intent kFrameworkName = some (JVal.jstr s))
    (hdoc : ∀ v, mapGet m kSdk = some v →
      ∀ s ∈ (getSources v).getD [], ∃ d, s = SourceVal.doc d)
    (hweb : ∀ v, mapGet m kFramework = some v →
      ∀ s ∈ (getSources v).getD [], ∃ w, s = SourceVal.web w) :
    synthesize_response q m intent = Except.ok (compose_spec m intent) := by
  have hone : ¬ m.length = 1 := by omega
  have hgt : m.length > 1 := by omega
  have hadd := add_sources_ok m hdoc hweb
  unfold synthesize_response compose_spec
  rw [if_neg hone, if_pos hgt]
  cases hf : mapGet m kFramework with
  | none =>
    dsimp only
    simp only [hadd]
  | some v =>
    rcases hfw v hf with hn | ⟨s, hn⟩
    · simp only [hn, synthFwHeaderName, fwNameStr, hadd]
      rfl
    · simp only [hn, synthFwHeaderName, fwNameStr, hadd]

/-- Looking a key up in the response map is invariant under permutation
when the keys are distinct (the map models a Python dict, whose key set
does not depend on insertion order). -/
theorem mapGet_perm {m m2 : RouteMap} (h : List.Perm m m2) :
    (m.map Prod.fst).Nodup → ∀ k, mapGet m k = mapGet m2 k := by
  induction h with
  | nil => intro _ k; rfl
  | cons x h ih =>
    intro hnd k
    obtain ⟨kx, vx⟩ := x
    simp only [List.map_cons, List.nodup_cons] at hnd
    by_cases hk : kx = k
    · simp [mapGet, hk]
    · simp only [mapGet, if_neg hk]
      exact ih hnd.2 k
  | swap x y l =>
    intro hnd k
    obtain ⟨kx, vx⟩ := x
    obtain ⟨ky, vy⟩ := y
    simp only [List.map_cons, List.nodup_cons, List.mem_cons] at hnd
    by_cases h1 : kx = k <;> by_cases h2 : ky = k
    · exfalso
      exact hnd.1 (Or.inl (h2.trans h1.symm))
    · simp [mapGet, h1, h2]
    · simp [mapGet, h1, h2]
    · simp [mapGet, h1, h2]
  | trans h1 h2 ih1 ih2 =>
    intro hnd k
    have hnd2 : _ := (h1.map Prod.fst).nodup hnd
    exact (ih1 hnd k).trans (ih2 hnd2 k)

theorem add_sources_congr {m m2 : RouteMap}
    (hget : ∀ k, mapGet m k = mapGet m2 k) :
    add_sources m = add_sources m2 := by
  unfold add_sources sdk_sources_block fw_sources_block
  rw [hget kSdk, hget kFramework]

/-- C8 counterexample: on a two-entry result map whose framework entry is
present while the intent's `framework_name` is JSON null, composition does
not emit the renderings at all — it raises (`None.capitalize()`), and the
request surfaces as the total-failure path. -/
theorem C8_counterexample :
    synthesize_response ( "q".toList)
        [(kSdk, AgentResp.qa ( "a".toList) [] true none),
         (kFramework, AgentResp.qa ( "b".toList) [] true none)]
        [(kFrameworkName, JVal.jnull)] = Except.error capNoneErr ∧
    (synthesize_response ( "q".toList)
        [(kSdk, AgentResp.qa ( "a".toList) [] true none),
         (kFramework, AgentResp.qa ( "b".toList) [] true none)]
        [(kFrameworkName, JVal.jnull)]).toOption = none := by
  exact ⟨rfl, rfl⟩

/-- C8 (amended): for every result map with two or more (distinct-key)
entries whose framework entry, when present, is accompanied by an intent
`framework_name` that is absent or a string, and whose sdk/framework
entries carry document/web shaped sources respectively, compose() emits
each present kind's rendering preceded by a header in the fixed priority
order RetrievalQA, FrameworkSearch, CodeGen, followed by one consolidated
Sources section with at most the first 3 RetrievalQA sources in original
order, then at most the first 3 FrameworkSearch sources in original order,
CodeGen contributing no sources — and the output is invariant under
permutation of the map entries (independent of iteration or completion
order); when instead the framework entry is present with a null or
boolean `framework_name`, composition raises and the request surfaces as
handle()'s total-failure result. -/
theorem C8_theorem :
    ∀ (q : List Char) (m : RouteMap) (intent : JObj),
      2 ≤ m.length →
      (m.map Prod.fst).Nodup →
      (∀ v, mapGet m kFramework = some v →
        dictGet intent kFrameworkName = none ∨
        ∃ s, dictGet intent kFrameworkName = some (JVal.jstr s)) →
      (∀ v, mapGet m kSdk = some v →
        ∀ s ∈ (getSources v).getD [], ∃ d, s = SourceVal.doc d) →
      (∀ v, mapGet m kFramework = some v →
        ∀ s ∈ (getSources v).getD [], ∃ w, s = SourceVal.web w) →
      synthesize_response q m intent = Except.ok (compose_spec m intent) ∧
      (∀ m2 : RouteMap, List.Perm m m2 →
        synthesize_response q m2 intent = synthesize_response q m intent) := by
  intro q m intent hlen hnd hfw hdoc hweb
  constructor
  · exact synthesize_multi_ok q m intent hlen hfw hdoc hweb
  · intro m2 hperm
    have hget := mapGet_perm hperm hnd
    have hlen2 : m2.length = m.length := hperm.length_eq.symm
    have hone : ¬ m2.length = 1 := by omega
    have hgt : m2.length > 1 := by omega
    have hone' : ¬ m.length = 1 := by omega
    have hgt' : m.length > 1 := by omega
    unfold synthesize_response
    rw [if_neg hone, if_pos hgt, if_neg hone', if_pos hgt']
    rw [hget kSdk, hget kFramework, hget kCode, add_sources_congr hget]

/-- C8 witness: a concrete two-entry map (RetrievalQA and CodeGen, in
reversed insertion order) composes to the spec-side formula and is
invariant under swapping the two entries. -/
theorem C8_witness :
    synthesize_response ( "q".toList)
        [(kCode, AgentResp.codeR ( "print(1)".toList) [] [] [] true),
         (kSdk, AgentResp.qa ( "ans".toList) [] true none)]
        [] =
      Except.ok (compose_spec
        [(kCode, AgentResp.codeR ( "print(1)".toList) [] [] [] true),
         (kSdk, AgentResp.qa ( "ans".toList) [] true none)] []) ∧
    synthesize_response ( "q".toList)
        [(kSdk, AgentResp.qa ( "ans".toList) [] true none),
         (kCode, AgentResp.codeR ( "print(1)".toList) [] [] [] true)]
        [] =
      synthesize_response ( "q".toList)
        [(kCode, AgentResp.codeR ( "print(1)".toList) [] [] [] true),
         (kSdk, AgentResp.qa ( "ans".toList) [] true none)]
        [] := by
  have h := C8_theorem ( "q".toList)
    [(kCode, AgentResp.codeR ( "print(1)".toList) [] [] [] true),
     (kSdk, AgentResp.qa ( "ans".toList) [] true none)]
    [] (by decide) (by decide)
    (by
      intro v hv
      rw [show mapGet
        [(kCode, AgentResp.codeR ( "print(1)".toList) [] [] [] true),
         (kSdk, AgentResp.qa ( "ans".toList) [] true none)] kFramework = none from rfl] at hv
      exact Option.noConfusion hv)
    (by
      intro v hv s hs
      rw [show mapGet
        [(kCode, AgentResp.codeR ( "print(1)".toList) [] [] [] true),
         (kSdk, AgentResp.qa ( "ans".toList) [] true none)] kSdk =
        some (AgentResp.qa ( "ans".toList) [] true none) from rfl] at hv
      cases hv
      simp [getSources] at hs)
    (by
      intro v hv
      rw [show mapGet
        [(kCode, AgentResp.codeR ( "print(1)".toList) [] [] [] true),
         (kSdk, AgentResp.qa ( "ans".toList) [] true none)] kFramework = none from rfl] at hv
      exact Option.noConfusion hv)
  exact ⟨h.1, h.2 _ (List.Perm.swap _ _ _)⟩

/-- C10 witness: both clauses applied to a concretely failing client. -/
theorem C10_witness :
    TavilySearch.search (fun _ => Except.error ( "quota".toList)) ( "q".toList) 3
        ( "advanced".toList) none = [] ∧
    FrameworkSpecialist.query ( "langchain".toList)
        (fun _ => Except.error ( "quota".toList)) { invoke := fun _ => Except.ok [] }
        ( "q".toList) = quotaFailResult ( "langchain".toList) :=
  ⟨C10_theorem.1 (fun _ => Except.error ( "quota".toList)) ( "q".toList) 3
      ( "advanced".toList) none ( "quota".toList) rfl,
   (C10_theorem.2 (fun _ => Except.error ( "quota".toList))
      { invoke := fun _ => Except.ok [] } ( "langchain".toList) ( "q".toList)
      ( "quota".toList) (fun _p => rfl)).1⟩
